import Mathlib

/-!
Verification of the notebook built-in output renderer described by the
repository spec and exercised by the test suite in src/unnamed/part_000.
The renderer implementation itself (the module imported as `..` by the
test file) is not part of the provided sources, so its behaviour is
modelled from the spec; the mime constants, the test fixtures (the error
record, the output DOM scaffolding, the output items) and every concrete
scenario come from the test file.
-/

set_option maxRecDepth 100000

namespace NotebookRenderer

/-! ### Generic character-list helpers -/

/-- `matchesAt pat s` is true when `pat` is a leading segment of `s`. -/
def matchesAt : List Char → List Char → Bool
| [], _ => true
| _ :: _, [] => false
| p :: ps, c :: cs => p = c && matchesAt ps cs

/-- `occursIn pat s` is true when `pat` occurs contiguously somewhere in `s`. -/
def occursIn (pat : List Char) : List Char → Bool
| [] => matchesAt pat []
| c :: cs => matchesAt pat (c :: cs) || occursIn pat cs

/-- Number of entries of a string list equal to `t`. -/
def countEq (t : String) : List String → Nat
| [] => 0
| s :: rest => (if s = t then 1 else 0) + countEq t rest

/-! ### Mime types, options and output items (from the test file) -/

/-- Mime type of structured error outputs (src/unnamed/part_000 line 27). -/
def errorMimeType : String := "application/vnd.code.notebook.error"

/-- Mime type of stdout stream outputs (src/unnamed/part_000 line 29). -/
def stdoutMimeType : String := "application/vnd.code.notebook.stdout"

/-- Mime type of stderr stream outputs (src/unnamed/part_000 line 30). -/
def stderrMimeType : String := "application/vnd.code.notebook.stderr"

/-- The stream/text mime types the tests iterate over
(src/unnamed/part_000 lines 32-36). -/
def textLikeMimeTypes : List String :=
[stdoutMimeType, stderrMimeType, "text/plain"]

/-- Recognized render options (spec section 3; defaults as in `createContext`
of the test file: word wrap on, scrolling on, line limit 30). -/
structure RenderOptions where
  outputWordWrap : Bool
  outputScrolling : Bool
  lineLimit : Nat
deriving DecidableEq

/-- The settings produced by `createContext()` with no overrides
(src/unnamed/part_000 lines 45-50). -/
def defaultSettings : RenderOptions := ⟨true, true, 30⟩

/-- Structured-error payload shape `\x7b name, message, stack \x7d`
(spec section 6; the `error` fixture of the test file). -/
structure ErrorRec where
  name : String
  message : String
  stack : String
deriving DecidableEq

/-- One output item: stable identifier, mime type and textual payload, as
built by `createOutputItem` in the test file. `errorJson` models the host
JSON parse of `text` used for the error mime type: `some` holds the parsed
record, `none` stands for an unparseable payload. -/
structure OutputItem where
  id : String
  mime : String
  text : String
  errorJson : Option ErrorRec
deriving DecidableEq

/-- A text-like output item, as `createOutputItem text mime id` builds it. -/
def mkItem (id mime text : String) : OutputItem := ⟨id, mime, text, none⟩

/-- JSON escaping of one character as performed by `JSON.stringify` on the
strings of the test fixtures (quotes, backslashes, newlines and the ESC
character are escaped). -/
def escapeJsonChar (c : Char) : String :=
if c = Char.ofNat 34 then "\\\""
else if c = Char.ofNat 92 then "\\\\"
else if c = Char.ofNat 10 then "\\n"
else if c = Char.ofNat 27 then "\\u001b"
else String.mk [c]

/-- JSON text of an error record, as `JSON.stringify error` produces it in
the test file. -/
def jsonStringify (e : ErrorRec) : String :=
"\x7b\"name\":" ++ "\"" ++ String.join (e.name.data.map escapeJsonChar) ++ "\"" ++
",\"message\":" ++ "\"" ++ String.join (e.message.data.map escapeJsonChar) ++ "\"" ++
",\"stack\":" ++ "\"" ++ String.join (e.stack.data.map escapeJsonChar) ++ "\"" ++ "\x7d"

/-! ### ANSI escape splitting -/

/-- State of the ANSI escape-sequence scanner: whether the scanner is inside
an escape sequence, the characters of the current plain segment, and the
finished segments. -/
structure AnsiState where
  inEsc : Bool
  cur : List Char
  segs : List String
deriving DecidableEq

/-- One step of the ANSI scanner: an ESC character closes the current
segment and starts an escape sequence, which runs up to the terminating
letter m; other characters extend the current segment. -/
def ansiStep (st : AnsiState) (c : Char) : AnsiState :=
if st.inEsc then
  if c = 'm' then ⟨false, st.cur, st.segs⟩ else st
else if c = Char.ofNat 27 then
  ⟨true, [], st.segs ++ (if st.cur.isEmpty then [] else [String.mk st.cur])⟩
else
  ⟨false, st.cur ++ [c], st.segs⟩

/-- Modelled from the spec: the renderer splits text holding terminal
color-escape sequences into the plain-text segments between the escapes,
each displayed in its own styled element, stripping the escapes themselves
(spec section 4.1 step 1, structured-error display). -/
def ansiSpans (s : String) : List String :=
let st := s.data.foldl ansiStep ⟨false, [], []⟩
st.segs ++ (if st.cur.isEmpty then [] else [String.mk st.cur])

/-! ### DOM model: rendered blocks, output containers, cell views -/

/-- One rendered chunk inside a block: the identifier of the output item it
came from and its displayed text segments. -/
structure Chunk where
  id : String
  spans : List String
deriving DecidableEq

/-- The element the renderer inserts as the child of an output container:
its presentation classes, its chunks (one per consolidated item), and
whether it is a stream-consolidation block. -/
structure Rendered where
  classes : List String
  chunks : List Chunk
  isStream : Bool
deriving DecidableEq

/-- One output container (the `div.output` element of the test scaffolding):
whether the remove-padding class is set on it, and its rendered child
content, when any. -/
structure OutputCell where
  removePadding : Bool
  content : Option Rendered
deriving DecidableEq

/-- The view a render call has of the cell DOM: the sibling output
containers before the target (nearest first), the target container, and the
siblings after it. -/
structure CellView where
  before : List OutputCell
  target : OutputCell
  after : List OutputCell
deriving DecidableEq

/-- A fresh, empty output container, as `OutputHtml` creates it. -/
def emptyOutput : OutputCell := ⟨false, none⟩

/-- The view of the first output element of a fresh `OutputHtml` cell:
no siblings, empty target. -/
def freshView : CellView := ⟨[], emptyOutput, []⟩

/-- The sibling output containers of a view in document order. -/
def cellOf (v : CellView) : List OutputCell :=
v.before.reverse ++ v.target :: v.after

/-! ### The renderer, modelled from the spec -/

/-- Whether a mime type is a stream type (stdout or stderr). -/
def isStreamMime (m : String) : Bool :=
m = stdoutMimeType || m = stderrMimeType

/-- Modelled from the spec: presentation classes of the inserted wrapper
element, "word-wrap" when word wrap is enabled and "scrollable" when
scrolling is enabled (spec section 4.1 step 2). -/
def wrapperClasses (opts : RenderOptions) : List String :=
(if opts.outputWordWrap then ["word-wrap"] else []) ++
(if opts.outputScrolling then ["scrollable"] else [])

/-- Modelled from the spec: a structured error is displayed through its
stack trace, split on the ANSI color escapes it may embed, so that the
trailing segment of the message (the text after the last escape) is shown;
with no stack trace, the name and the message are shown (spec section 4.1
step 1). -/
def renderErrorSpans (e : ErrorRec) : List String :=
if e.stack = "" then [e.name ++ ": " ++ e.message] else ansiSpans e.stack

/-- Modelled from the spec: the displayed text segments of an output item.
Stream and plain-text payloads are rendered verbatim; an error payload is
parsed as a structured error record and displayed through
`renderErrorSpans`, falling back to the raw payload text when the JSON does
not parse (spec sections 4.1 and 7). -/
def renderSpans (item : OutputItem) : List String :=
if item.mime = errorMimeType then
  match item.errorJson with
  | some e => renderErrorSpans e
  | none => [item.text]
else [item.text]

/-- Insert a chunk keyed by item identifier into a block: an existing chunk
with the same identifier is replaced in place, otherwise the chunk is
appended. This is what makes consolidation idempotent per identifier. -/
def putChunk (id : String) (spans : List String) : List Chunk → List Chunk
| [] => [⟨id, spans⟩]
| c :: rest =>
  if c.id = id then ⟨id, spans⟩ :: rest else c :: putChunk id spans rest

/-- Add the chunk of one item to an existing consolidation block. -/
def appendToGroup (id : String) (spans : List String) (r : Rendered) : Rendered :=
⟨r.classes, putChunk id spans r.chunks, r.isStream⟩

/-- Modelled from the spec: look through the previous sibling containers
(nearest first) for the stream-consolidation block adjacent stream chunks
join. Empty containers are skipped (their content was itself consolidated
upward); a container holding non-stream content stops the search
(spec section 4.1 step 4). -/
def tryConsolidate (id : String) (spans : List String) : List OutputCell → Option (List OutputCell)
| [] => none
| o :: rest =>
  match o.content with
  | some r =>
    if r.isStream then some (⟨o.removePadding, some (appendToGroup id spans r)⟩ :: rest)
    else none
  | none => (tryConsolidate id spans rest).map (o :: ·)

/-- Modelled from the spec: render one output item into its target
container. The padding of the target is removed exactly when both word wrap
and scrolling are enabled; existing target content is fully replaced by the
new representation; a stream item whose previous siblings hold a
stream-consolidation block joins that block instead, leaving the target
untouched (spec section 4.1). The function is total: no call throws. -/
def renderOutputItem (opts : RenderOptions) (item : OutputItem) (v : CellView) : CellView :=
let spans := renderSpans item
let fresh : OutputCell :=
  ⟨opts.outputWordWrap && opts.outputScrolling,
   some ⟨wrapperClasses opts, [⟨item.id, spans⟩], isStreamMime item.mime⟩⟩
if isStreamMime item.mime then
  match tryConsolidate item.id spans v.before with
  | some before2 => ⟨before2, v.target, v.after⟩
  | none => ⟨v.before, fresh, v.after⟩
else ⟨v.before, fresh, v.after⟩

/-! ### Serialization of rendered content (the innerHTML the tests probe) -/

/-- HTML escaping of one text character, as innerHTML serialization
performs it. -/
def escCharList (c : Char) : List Char :=
if c = '<' then "&lt;".data
else if c = '>' then "&gt;".data
else if c = '&' then "&amp;".data
else [c]

/-- HTML escaping of a text, character by character. -/
def escList : List Char → List Char
| [] => []
| c :: cs => escCharList c ++ escList cs

/-- Serialized form of one displayed text segment: a span element holding
the escaped text. -/
def spanChars (s : String) : List Char :=
"<span>".data ++ escList s.data ++ "</span>".data

/-- Serialized form of a list of text segments. -/
def spansChars : List String → List Char
| [] => []
| s :: rest => spanChars s ++ spansChars rest

/-- Serialized form of the chunks of a block. -/
def chunksChars : List Chunk → List Char
| [] => []
| c :: rest => spansChars c.spans ++ chunksChars rest

/-- The innerHTML of the inserted wrapper element of a block. -/
def renderedHtml (r : Rendered) : List Char := chunksChars r.chunks

/-- The innerHTML of the child content of an output container; empty when
the container holds nothing. -/
def cellContentHtml (o : OutputCell) : List Char :=
match o.content with
| some r => renderedHtml r
| none => []

/-- The innerHTML of the child content of the target container of a view. -/
def targetHtml (v : CellView) : List Char := cellContentHtml v.target

/-- The anchored content probe the tests use:
whether the serialized content holds the text `t` between a closing angle
bracket and an opening end tag, the pattern that
`innerHTML.indexOf` checks written as a character list. -/
def occursTag (t : String) (html : List Char) : Bool :=
occursIn ('>' :: (t.data ++ ['<', '/'])) html

/-- Whether an output container holds rendered child content. -/
def hasContent (o : OutputCell) : Bool := o.content.isSome

/-- Whether the rendered child of an output container carries a class. -/
def contentHasClass (o : OutputCell) (c : String) : Bool :=
match o.content with
| some r => r.classes.contains c
| none => false

/-- Number of displayed text segments of an output container equal to `t`:
how many times the text `t` occurs in the container as the full text of an
element. -/
def cellTextCount (t : String) (o : OutputCell) : Nat :=
match o.content with
| some r => (r.chunks.map (fun c => countEq t c.spans)).sum
| none => 0

/-- Whether a character never needs HTML escaping and never starts an ANSI
escape sequence. -/
def plainChar (c : Char) : Bool :=
!(c = '<' || c = '>' || c = '&' || c = Char.ofNat 27)

/-- Whether a text is plain: free of markup-significant characters and of
ANSI escapes. -/
def plainText (s : String) : Bool := s.data.all plainChar

/-! ### Activation entry point (spec section 6) -/

/-- Modelled from the spec: the render context the host supplies to
`activate`: persisted view-state accessors, a settings object, a
settings-change subscription and the workspace trust flag. The renderer
lookup and the disposable returned by the subscription are represented
abstractly. -/
structure RenderContext where
  getState : Unit → Option String
  setState : Option String → Unit
  settings : RenderOptions
  onDidChangeSettings : Unit → Unit
  isTrusted : Bool

/-- The renderer surface the host consumes: the render entry point. -/
structure RendererApi where
  renderOutputItem : OutputItem → CellView → CellView

/-- Modelled from the spec: `activate` returns the renderer api built over
the settings of the supplied context, or `none` for a missing renderer;
being a total function of type `Option RendererApi`, absence is always the
value `none` and never an exception (spec sections 6 and 7). -/
def activate (ctx : RenderContext) : Option RendererApi :=
some ⟨fun item v => renderOutputItem ctx.settings item v⟩

/-! ### Test fixtures (from src/unnamed/part_000) -/

/-- The error fixture of the test file (lines 17-25): a NameError whose
stack trace embeds ANSI color escapes and ends with the error message. -/
def testError : ErrorRec :=
⟨"NameError", "name 'x' is not defined",
 "\x1b[1;31m---------------------------------------------------------------------------\x1b[0m" ++
 "\n\x1b[1;31mNameError\x1b[0m                                 Traceback (most recent call last)" ++
 "\nCell \x1b[1;32mIn[3], line 1\x1b[0m" ++
 "\n\x1b[1;32m----> 1\x1b[0m \x1b[39mprint\x1b[39m(x)" ++
 "\n\n\x1b[1;31mNameError\x1b[0m: name 'x' is not defined"⟩

/-- The output item `createOutputItem(JSON.stringify(error), errorMimeType)`
of the error tests. -/
def testErrorItem : OutputItem :=
⟨"123", errorMimeType, jsonStringify testError, some testError⟩

/-- The replacement error of the second error test (line 198): same name,
new message, stack replaced by plain text. -/
def testError2 : ErrorRec := ⟨"NameError", "new message", "replaced content"⟩

/-- The output item of the replacement error render. -/
def testErrorItem2 : OutputItem :=
⟨"123", errorMimeType, jsonStringify testError2, some testError2⟩

/-! ### Helper lemmas -/

theorem render_fresh_textlike (opts : RenderOptions) (id t mime : String)
    (tgt : OutputCell) (after : List OutputCell) (hm : mime ∈ textLikeMimeTypes) :
    renderOutputItem opts (mkItem id mime t) ⟨[], tgt, after⟩ =
      ⟨[], ⟨opts.outputWordWrap && opts.outputScrolling,
            some ⟨wrapperClasses opts, [⟨id, [t]⟩], isStreamMime mime⟩⟩, after⟩ := by
  have h : mime = stdoutMimeType ∨ mime = stderrMimeType ∨ mime = "text/plain" := by
    simpa [textLikeMimeTypes] using hm
  rcases h with h | h | h <;> subst h <;> rfl

theorem putChunk_putChunk (id : String) (spans : List String) (l : List Chunk) :
    putChunk id spans (putChunk id spans l) = putChunk id spans l := by
  induction l with
  | nil => simp [putChunk]
  | cons c rest ih =>
    by_cases h : c.id = id
    · simp [putChunk, h]
    · simp [putChunk, h, ih]

theorem tryConsolidate_idem (id : String) (spans : List String) :
    ∀ (l l2 : List OutputCell), tryConsolidate id spans l = some l2 →
      tryConsolidate id spans l2 = some l2 := by
  intro l
  induction l with
  | nil => intro l2 h; simp [tryConsolidate] at h
  | cons o rest ih =>
    intro l2 h
    cases hc : o.content with
    | some r =>
      by_cases hs : r.isStream
      · simp only [tryConsolidate, hc, hs, if_true, Option.some.injEq] at h
        subst h
        simp [tryConsolidate, appendToGroup, hs, putChunk_putChunk]
      · simp [tryConsolidate, hc, hs] at h
    | none =>
      simp only [tryConsolidate, hc] at h
      rcases Option.map_eq_some'.mp h with ⟨rest2, hrest, hl2⟩
      subst hl2
      simp only [tryConsolidate, hc, ih rest2 hrest, Option.map_some']

theorem escCharList_plain (c : Char) (h : plainChar c = true) : escCharList c = [c] := by
  simp only [plainChar, Bool.not_eq_true', Bool.or_eq_false_iff, decide_eq_false_iff_not] at h
  simp [escCharList, h.1.1.1, h.1.1.2, h.1.2, h.2]

theorem escList_plain : ∀ (l : List Char), (∀ c ∈ l, plainChar c = true) → escList l = l := by
  intro l
  induction l with
  | nil => intro _; rfl
  | cons c cs ih =>
    intro h
    rw [escList, escCharList_plain c (h c (by simp)), ih (fun d hd => h d (by simp [hd]))]
    rfl

theorem matchesAt_self_append : ∀ (p q : List Char), matchesAt p (p ++ q) = true := by
  intro p
  induction p with
  | nil => intro q; rfl
  | cons c cs ih => intro q; simp [matchesAt, ih]

theorem occursIn_head (p s : List Char) (h : matchesAt p s = true) : occursIn p s = true := by
  cases s with
  | nil => simpa [occursIn] using h
  | cons c cs => simp [occursIn, h]

theorem occursIn_append_left : ∀ (a b : List Char) (p : List Char),
    occursIn p b = true → occursIn p (a ++ b) = true := by
  intro a
  induction a with
  | nil => intro b p h; simpa using h
  | cons c cs ih => intro b p h; simp [occursIn, ih b p h]

theorem occursTag_spanChars (t : String) (h : plainText t = true) (extra : List Char) :
    occursTag t (spanChars t ++ extra) = true := by
  have hp : ∀ c ∈ t.data, plainChar c = true := by
    simpa [plainText, List.all_eq_true] using h
  have he : escList t.data = t.data := escList_plain t.data hp
  have h1 : occursTag t (('>' :: (t.data ++ ['<', '/'])) ++
      (['s', 'p', 'a', 'n', '>'] ++ extra)) = true :=
    occursIn_head _ _ (matchesAt_self_append _ _)
  have h2 := occursIn_append_left ['<', 's', 'p', 'a', 'n'] _ _ h1
  unfold occursTag spanChars
  rw [he]
  unfold occursTag at h2
  have hopen : "<span>".data = ['<', 's', 'p', 'a', 'n', '>'] := rfl
  have hclose : "</span>".data = ['<', '/', 's', 'p', 'a', 'n', '>'] := rfl
  rw [hopen, hclose]
  simpa [List.append_assoc] using h2

/-! ### The claims -/

/-- C1: for every supported stream/text mime type, rendering with word wrap
and scrolling both enabled inserts a child carrying the classes
"word-wrap" and "scrollable" and puts "remove-padding" on the target
container; with both disabled, the child carries neither class and the
container does not get "remove-padding". -/
theorem spec_c1 (mime id t : String) (hm : mime ∈ textLikeMimeTypes) :
    (hasContent (renderOutputItem ⟨true, true, 30⟩ (mkItem id mime t) freshView).target = true ∧
     contentHasClass (renderOutputItem ⟨true, true, 30⟩ (mkItem id mime t) freshView).target
       "word-wrap" = true ∧
     contentHasClass (renderOutputItem ⟨true, true, 30⟩ (mkItem id mime t) freshView).target
       "scrollable" = true ∧
     (renderOutputItem ⟨true, true, 30⟩ (mkItem id mime t) freshView).target.removePadding = true) ∧
    (hasContent (renderOutputItem ⟨false, false, 30⟩ (mkItem id mime t) freshView).target = true ∧
     contentHasClass (renderOutputItem ⟨false, false, 30⟩ (mkItem id mime t) freshView).target
       "word-wrap" = false ∧
     contentHasClass (renderOutputItem ⟨false, false, 30⟩ (mkItem id mime t) freshView).target
       "scrollable" = false ∧
     (renderOutputItem ⟨false, false, 30⟩ (mkItem id mime t) freshView).target.removePadding
       = false) := by
  simp only [freshView]
  rw [render_fresh_textlike ⟨true, true, 30⟩ id t mime emptyOutput [] hm,
      render_fresh_textlike ⟨false, false, 30⟩ id t mime emptyOutput [] hm]
  exact ⟨⟨rfl, rfl, rfl, rfl⟩, ⟨rfl, rfl, rfl, rfl⟩⟩

/-- Witness for C1 at the mime type text/plain and the payload of the tests. -/
theorem spec_c1_witness :
    ("text/plain" ∈ textLikeMimeTypes) ∧
    ((hasContent (renderOutputItem ⟨true, true, 30⟩ (mkItem "123" "text/plain" "content")
        freshView).target = true ∧
      contentHasClass (renderOutputItem ⟨true, true, 30⟩ (mkItem "123" "text/plain" "content")
        freshView).target "word-wrap" = true ∧
      contentHasClass (renderOutputItem ⟨true, true, 30⟩ (mkItem "123" "text/plain" "content")
        freshView).target "scrollable" = true ∧
      (renderOutputItem ⟨true, true, 30⟩ (mkItem "123" "text/plain" "content")
        freshView).target.removePadding = true) ∧
     (hasContent (renderOutputItem ⟨false, false, 30⟩ (mkItem "123" "text/plain" "content")
        freshView).target = true ∧
      contentHasClass (renderOutputItem ⟨false, false, 30⟩ (mkItem "123" "text/plain" "content")
        freshView).target "word-wrap" = false ∧
      contentHasClass (renderOutputItem ⟨false, false, 30⟩ (mkItem "123" "text/plain" "content")
        freshView).target "scrollable" = false ∧
      (renderOutputItem ⟨false, false, 30⟩ (mkItem "123" "text/plain" "content")
        freshView).target.removePadding = false)) :=
  ⟨by decide, spec_c1 "text/plain" "123" "content" (by decide)⟩

/-- C2: after a second render call into a container already holding the
content of a previous call, with a different text payload, the old text
occurs zero times among the displayed element texts of the container and
the new text occurs exactly once. -/
theorem spec_c2 (opts : RenderOptions) (mime1 mime2 id1 id2 t1 t2 : String)
    (hm1 : mime1 ∈ textLikeMimeTypes) (hm2 : mime2 ∈ textLikeMimeTypes) (hne : t1 ≠ t2)
    (tgt : OutputCell) (after : List OutputCell) :
    cellTextCount t1 (renderOutputItem opts (mkItem id2 mime2 t2)
        (renderOutputItem opts (mkItem id1 mime1 t1) ⟨[], tgt, after⟩)).target = 0 ∧
    cellTextCount t2 (renderOutputItem opts (mkItem id2 mime2 t2)
        (renderOutputItem opts (mkItem id1 mime1 t1) ⟨[], tgt, after⟩)).target = 1 := by
  rw [render_fresh_textlike opts id1 t1 mime1 tgt after hm1,
      render_fresh_textlike opts id2 t2 mime2 _ after hm2]
  have h2 : (t2 = t1) = False := by
    simp only [eq_iff_iff, iff_false]
    exact fun h => hne h.symm
  simp [cellTextCount, countEq, h2]

/-- Witness for C2 at the payloads of the replacement test. -/
theorem spec_c2_witness :
    ("text/plain" ∈ textLikeMimeTypes) ∧ ("content" : String) ≠ "replaced content" ∧
    (cellTextCount "content" (renderOutputItem defaultSettings
        (mkItem "123" "text/plain" "replaced content")
        (renderOutputItem defaultSettings (mkItem "123" "text/plain" "content")
          ⟨[], emptyOutput, []⟩)).target = 0 ∧
     cellTextCount "replaced content" (renderOutputItem defaultSettings
        (mkItem "123" "text/plain" "replaced content")
        (renderOutputItem defaultSettings (mkItem "123" "text/plain" "content")
          ⟨[], emptyOutput, []⟩)).target = 1) :=
  ⟨by decide, by decide,
   spec_c2 defaultSettings "text/plain" "text/plain" "123" "123" "content" "replaced content"
     (by decide) (by decide) (by decide) emptyOutput []⟩

/-- C3: rendering the three stream items of the consolidation test into
three sibling output containers of one cell leaves all three payload texts
inside the consolidated block of the first output element, while the cell
still holds three containers. -/
theorem spec_c3 :
    (let v1 := renderOutputItem defaultSettings
       (mkItem "1" stdoutMimeType "first stream content") freshView
     let v2 := renderOutputItem defaultSettings
       (mkItem "2" stdoutMimeType "second stream content") ⟨[v1.target], emptyOutput, []⟩
     let v3 := renderOutputItem defaultSettings
       (mkItem "3" stderrMimeType "third stream content")
       ⟨v2.target :: v2.before, emptyOutput, []⟩
     let cs := cellOf v3
     cs.length = 3 ∧
     hasContent (cs.getD 0 emptyOutput) = true ∧
     occursTag "first stream content" (cellContentHtml (cs.getD 0 emptyOutput)) = true ∧
     occursTag "second stream content" (cellContentHtml (cs.getD 0 emptyOutput)) = true ∧
     occursTag "third stream content" (cellContentHtml (cs.getD 0 emptyOutput)) = true) := by
  decide

/-- C4: rendering the structured-error fixture of the tests (mime
application/vnd.code.notebook.error, message "name 'x' is not defined")
inserts content whose serialization holds the trailing portion of the
message as the text of an element. -/
theorem spec_c4 :
    hasContent (renderOutputItem ⟨true, true, 30⟩ testErrorItem freshView).target = true ∧
    occursTag ": name 'x' is not defined"
      (targetHtml (renderOutputItem ⟨true, true, 30⟩ testErrorItem freshView)) = true := by
  decide

/-- C5: re-rendering the error output with a new stack value removes the
old message fragment from the container and shows the new stack text. -/
theorem spec_c5 :
    occursTag ": name 'x' is not defined"
      (targetHtml (renderOutputItem defaultSettings testErrorItem2
        (renderOutputItem defaultSettings testErrorItem freshView))) = false ∧
    occursTag "replaced content"
      (targetHtml (renderOutputItem defaultSettings testErrorItem2
        (renderOutputItem defaultSettings testErrorItem freshView))) = true := by
  decide

/-- C6: activate returns an optional renderer api, so a missing renderer is
the explicit value none and never an exception (the function is total);
for every supplied render context it returns a defined renderer whose
renderOutputItem is the renderer over the settings of that context. -/
theorem spec_c6 : ∀ ctx : RenderContext, ∃ api : RendererApi,
    activate ctx = some api ∧
    ∀ (item : OutputItem) (v : CellView),
      api.renderOutputItem item v = renderOutputItem ctx.settings item v :=
  fun ctx => ⟨⟨fun item v => renderOutputItem ctx.settings item v⟩, rfl, fun _ _ => rfl⟩

/-- C7: rendering is idempotent per identifier: a second call with the
identical item, options and view leaves the view exactly as one call
does. -/
theorem spec_c7 (opts : RenderOptions) (item : OutputItem) (v : CellView) :
    renderOutputItem opts item (renderOutputItem opts item v) =
      renderOutputItem opts item v := by
  by_cases hs : isStreamMime item.mime
  · cases hc : tryConsolidate item.id (renderSpans item) v.before with
    | some b2 =>
      simp only [renderOutputItem, hs, if_true, hc, tryConsolidate_idem item.id
        (renderSpans item) v.before b2 hc]
    | none =>
      simp only [renderOutputItem, hs, if_true, hc]
  · simp only [renderOutputItem, hs, if_false, Bool.false_eq_true]

/-- C8: renderOutputItem is a deterministic function of the view, the item
and the options alone: equal inputs give equal resulting views. -/
theorem spec_c8 (o1 o2 : RenderOptions) (i1 i2 : OutputItem) (v1 v2 : CellView)
    (ho : o1 = o2) (hi : i1 = i2) (hv : v1 = v2) :
    renderOutputItem o1 i1 v1 = renderOutputItem o2 i2 v2 := by
  subst ho; subst hi; subst hv; rfl

/-- Witness for C8 at the plain-text test input. -/
theorem spec_c8_witness :
    defaultSettings = defaultSettings ∧
    mkItem "123" "text/plain" "content" = mkItem "123" "text/plain" "content" ∧
    freshView = freshView ∧
    renderOutputItem defaultSettings (mkItem "123" "text/plain" "content") freshView =
      renderOutputItem defaultSettings (mkItem "123" "text/plain" "content") freshView :=
  ⟨rfl, rfl, rfl,
   spec_c8 defaultSettings defaultSettings (mkItem "123" "text/plain" "content")
     (mkItem "123" "text/plain" "content") freshView freshView rfl rfl rfl⟩

/-- C9: an error-mime item whose payload does not parse as JSON is rendered
as a fallback raw-text block in the target container; the renderer is a
total function, so the failure never escapes as an exception. -/
theorem spec_c9 (opts : RenderOptions) (id raw : String) (v : CellView) :
    renderOutputItem opts (⟨id, errorMimeType, raw, none⟩ : OutputItem) v =
      ⟨v.before, ⟨opts.outputWordWrap && opts.outputScrolling,
         some ⟨wrapperClasses opts, [⟨id, [raw]⟩], false⟩⟩, v.after⟩ := rfl

/-- C10, counterexample: for the error mime type the payload text does not
appear between tags in the rendered content. The error fixture of the
tests is well formed and renders non-empty content, yet its JSON payload
text is absent from the serialization; what appears are the segments of
the stack trace. -/
theorem spec_c10_counterexample :
    hasContent (renderOutputItem defaultSettings testErrorItem freshView).target = true ∧
    occursTag testErrorItem.text
      (targetHtml (renderOutputItem defaultSettings testErrorItem freshView)) = false := by
  decide

/-- C10, amended: for every stream/text mime type with a markup-free
payload, rendering into a fresh output element leaves the target non-empty
and its serialized content holds the payload text between tags, under
every word-wrap/scrolling setting; for the error mime type with a
well-formed payload carrying a stack trace, the target is likewise
non-empty and its content is the block of the ANSI-split stack segments.
The renderer is a total function, so every such call completes without
throwing. -/
theorem spec_c10_amended :
    (∀ (opts : RenderOptions) (mime id t : String), mime ∈ textLikeMimeTypes →
       plainText t = true →
       hasContent (renderOutputItem opts (mkItem id mime t) freshView).target = true ∧
       occursTag t (targetHtml (renderOutputItem opts (mkItem id mime t) freshView)) = true) ∧
    (∀ (opts : RenderOptions) (id raw : String) (e : ErrorRec), e.stack ≠ "" →
       hasContent (renderOutputItem opts (⟨id, errorMimeType, raw, some e⟩ : OutputItem)
         freshView).target = true ∧
       (renderOutputItem opts (⟨id, errorMimeType, raw, some e⟩ : OutputItem)
         freshView).target.content =
           some ⟨wrapperClasses opts, [⟨id, ansiSpans e.stack⟩], false⟩) := by
  constructor
  · intro opts mime id t hm hp
    simp only [freshView]
    rw [render_fresh_textlike opts id t mime emptyOutput [] hm]
    refine ⟨rfl, ?_⟩
    show occursTag t (chunksChars [⟨id, [t]⟩]) = true
    have : chunksChars [⟨id, [t]⟩] = spanChars t ++ [] := by
      simp [chunksChars, spansChars]
    rw [this]
    exact occursTag_spanChars t hp []
  · intro opts id raw e hs
    have hr : renderSpans (⟨id, errorMimeType, raw, some e⟩ : OutputItem) =
        ansiSpans e.stack := by
      simp [renderSpans, renderErrorSpans, hs]
    have hstream : isStreamMime errorMimeType = false := by decide
    constructor
    · show ((renderOutputItem opts _ freshView).target.content).isSome = true
      simp [renderOutputItem, hstream]
    · simp [renderOutputItem, hstream, hr, freshView]

/-- Witness for C10 at the plain-text test payload and the error fixture. -/
theorem spec_c10_witness :
    ("text/plain" ∈ textLikeMimeTypes) ∧ plainText "content" = true ∧
    (hasContent (renderOutputItem defaultSettings (mkItem "123" "text/plain" "content")
        freshView).target = true ∧
     occursTag "content" (targetHtml (renderOutputItem defaultSettings
        (mkItem "123" "text/plain" "content") freshView)) = true) ∧
    testError.stack ≠ "" ∧
    (hasContent (renderOutputItem defaultSettings
        (⟨"123", errorMimeType, jsonStringify testError, some testError⟩ : OutputItem)
        freshView).target = true ∧
     (renderOutputItem defaultSettings
        (⟨"123", errorMimeType, jsonStringify testError, some testError⟩ : OutputItem)
        freshView).target.content =
          some ⟨wrapperClasses defaultSettings, [⟨"123", ansiSpans testError.stack⟩], false⟩) :=
  ⟨by decide, by decide,
   spec_c10_amended.1 defaultSettings "text/plain" "123" "content" (by decide) (by decide),
   by decide,
   spec_c10_amended.2 defaultSettings "123" (jsonStringify testError) testError (by decide)⟩

end NotebookRenderer
